import Mathlib

/-!
Verification of the warehouse pick-and-place robot controller
(`latest_controller.py`, with the alternate variant
`multiple_quantity_picking.py` sharing the same waypoint interpreter).

The controller is embedded shallowly: the remote backend is abstracted
into per-call success flags and parsed responses, actuator writes and
backend reports become an event trace, and the body of the main
`while robot.step(...)` loop becomes a pure `step` function on an
explicit state record.  Paths on which the Python process would raise an
uncaught exception are modelled as `none`.
-/

namespace WarehouseRobot

/-- Atomic Python values that occur as components of waypoint tuples. -/
inductive PyV
  | pyInt (n : Int)
  | pyFloat (q : Rat)
  | pyStr (s : String)
deriving DecidableEq

/-- Numeric coercion: Python arithmetic accepts both ints and floats and
raises on strings. -/
def PyV.toRat : PyV → Option Rat
  | .pyInt n => some (n : Rat)
  | .pyFloat q => some q
  | .pyStr _ => none

/-- A waypoint is a Python tuple of atoms; the interpreter dispatches on
its length and string components. -/
abbrev Waypoint := List PyV

/-- One entry of the local `shelves["can_shelf"]["slots"]` cache. -/
structure Slot where
  id : Int
  available : Bool
deriving DecidableEq

/-- Observable actions of one controller run: actuator commands, blocking
waits, diagnostics, and backend reports. -/
inductive Ev
  | wheelCmd (w1 w2 w3 w4 : Rat)
  | armCmd (idx : Nat) (target : Rat)
  | fingerCmd (leftFinger : Bool) (target : Rat)
  | waitCmd (seconds : Rat)
  | setRotationCmd (x y z angle : Rat)
  | logMsg (tag : String)
  | logClamp (availCount requested : Int)
  | logCompleted (count : Int)
  | logPicking (i : Nat) (sid : Int)
  | markUnavailableCall (sid : Int) (ok : Bool)
  | robotLog (tag : String)
  | reportJobTime (isStartTime : Bool) (jobId : String)
  | reportJobStatus (status jobId : String)
  | reportAvailability (status : String)
  | reportBattery (batteryCount : Int)
  | pollAttempt
  | jobStarted (jobId : String) (quantity : Int)
deriving DecidableEq

/-- `get_available_slots`: walk the cached slot list in order and collect
the ids of the available ones. -/
def get_available_slots : List Slot → List Int
  | [] => []
  | s :: rest =>
    if s.available then s.id :: get_available_slots rest
    else get_available_slots rest

/-- The mutation loop inside `mark_slot_unavailable`: set
`slot["available"] = False` on the first slot with the given id and
return immediately; `none` when no slot matches. -/
def markFirst (sid : Int) : List Slot → Option (List Slot)
  | [] => none
  | s :: rest =>
    if s.id = sid then some ({ s with available := false } :: rest)
    else (markFirst sid rest).map (s :: ·)

/-- `mark_slot_unavailable`: the backend patch result is abstracted to
`remoteSuccess`.  Only on a successful response is the local cache
mutated (first slot with the id), returning `True`; every other path
falls through to `return False` with the cache untouched. -/
def mark_slot_unavailable (remoteSuccess : Bool) (sid : Int) (cache : List Slot) :
    Bool × List Slot :=
  if remoteSuccess then
    match markFirst sid cache with
    | some cache' => (true, cache')
    | none => (false, cache)
  else (false, cache)

/-- First cache entry with the given id (read-only lookup used to state
properties of the cache). -/
def firstWithId (sid : Int) : List Slot → Option Slot
  | [] => none
  | s :: rest => if s.id = sid then some s else firstWithId sid rest

/-- The universal opening of `pick_can_from_slot`: stop the wheels, reset
all five arm joints and both fingers to 0.0, and wait 2 s.  This runs
before the slot id is inspected. -/
def resetCmds : List Ev :=
  [Ev.wheelCmd 0 0 0 0,
   Ev.armCmd 0 0, Ev.armCmd 1 0, Ev.armCmd 2 0, Ev.armCmd 3 0, Ev.armCmd 4 0,
   Ev.fingerCmd true 0, Ev.fingerCmd false 0,
   Ev.waitCmd 2]

/-- The shared tail of the choreography: close gripper, lift, rotate to
the drop orientation, optionally lower arm3, release, and return every
joint to neutral. -/
def dropAndReturn (arm1Rotate arm2Drop : Rat) (arm3Drop : Option Rat)
    (gripperRelease releaseWait : Rat) : List Ev :=
  [Ev.fingerCmd true 0, Ev.fingerCmd false 0, Ev.waitCmd 2.5,
   Ev.armCmd 1 0.75, Ev.waitCmd 2,
   Ev.armCmd 0 arm1Rotate, Ev.waitCmd 2,
   Ev.armCmd 1 arm2Drop, Ev.waitCmd 2]
  ++ (match arm3Drop with
      | some v => [Ev.armCmd 2 v, Ev.waitCmd 2]
      | none => [])
  ++ [Ev.fingerCmd true gripperRelease, Ev.fingerCmd false gripperRelease,
      Ev.waitCmd releaseWait,
      Ev.armCmd 1 0.90, Ev.waitCmd 2,
      Ev.armCmd 0 0, Ev.waitCmd 2,
      Ev.armCmd 2 0, Ev.waitCmd 2,
      Ev.armCmd 3 0, Ev.waitCmd 2,
      Ev.armCmd 1 0, Ev.waitCmd 2,
      Ev.fingerCmd true 0.02, Ev.fingerCmd false 0.02, Ev.waitCmd 2]

/-- `pick_can_from_slot`: reset first, then the slot-specific lowering
stages and the shared drop/return tail for slots 2 and 4; slots 1 and 3
log that they are unimplemented and return; any other id logs an invalid
slot id and returns. -/
def pick_can_from_slot (slot_id : Int) : List Ev :=
  resetCmds ++
  (if slot_id = 2 then
    [Ev.fingerCmd true 0.025, Ev.fingerCmd false 0.025, Ev.waitCmd 2,
     Ev.armCmd 1 (-0.80), Ev.waitCmd 1.5,
     Ev.armCmd 2 0, Ev.waitCmd 2.5,
     Ev.armCmd 3 (-0.82),
     Ev.armCmd 3 (-1.72), Ev.waitCmd 2.5]
    ++ dropAndReturn (-2.94) (-0.52) (some (-0.84)) 0.02 2
  else if slot_id = 4 then
    [Ev.fingerCmd true 0.025, Ev.fingerCmd false 0.025, Ev.waitCmd 2,
     Ev.armCmd 3 1.45, Ev.waitCmd 2.5,
     Ev.armCmd 2 (-1.15), Ev.waitCmd 2.5,
     Ev.armCmd 1 (-0.92), Ev.waitCmd 1.5,
     Ev.armCmd 3 (-0.30),
     Ev.armCmd 3 (-1.32), Ev.waitCmd 2.5]
    ++ dropAndReturn (-2.94) (-0.32) none 0.02 2
  else if slot_id = 1 then
    [Ev.logMsg "slot 1 not implemented"]
  else if slot_id = 3 then
    [Ev.logMsg "slot 3 not implemented"]
  else
    [Ev.logMsg "invalid slot id"])

/-- The `for i in range(quantity)` loop of `pick_can_quantity`: at each
iteration, if `i` is still inside the available-slot list, run the pick
choreography for `available[i]` and then attempt to mark that slot
unavailable (consuming the next backend result); otherwise log and
break.  The slot list is computed once, before the loop. -/
def pickLoop (avail : List Int) : Nat → Nat → List Slot → (Nat → Bool) →
    List Slot × List Ev
  | _, 0, cache, _ => (cache, [])
  | i, n + 1, cache, markOk =>
    match avail[i]? with
    | some sid =>
      let m := mark_slot_unavailable (markOk 0) sid cache
      let rest := pickLoop avail (i + 1) n m.2 (fun k => markOk (k + 1))
      (rest.1,
       Ev.logPicking i sid ::
         (pick_can_from_slot sid ++ Ev.markUnavailableCall sid m.1 :: rest.2))
    | none => (cache, [Ev.logMsg "no more available slots"])

/-- `pick_can_quantity`: reject a non-int or non-positive quantity, read
the available slots, clamp the quantity down to the available count
(logging a warning), run the per-slot loop, and log completion with the
clamped count.  The Python function never executes a `return <value>`,
so the returned value (first component) is always `none`. -/
def pick_can_quantity (q : PyV) (cache : List Slot) (markOk : Nat → Bool) :
    Option Int × List Slot × List Ev :=
  match q with
  | .pyInt n =>
    if n ≤ 0 then (none, cache, [Ev.logMsg "invalid quantity"])
    else
      let avail := get_available_slots cache
      let clamped : Int :=
        if (avail.length : Int) < n then (avail.length : Int) else n
      let evClamp : List Ev :=
        if (avail.length : Int) < n then [Ev.logClamp (avail.length : Int) n]
        else []
      let r := pickLoop avail 0 clamped.toNat cache markOk
      (none, r.1,
       Ev.logMsg "starting pick can sequence" ::
         Ev.robotLog "starting pick can sequence" ::
           (evClamp ++ r.2 ++
             [Ev.logCompleted clamped,
              Ev.robotLog "completed picking can operation"]))
  | _ => (none, cache, [Ev.logMsg "invalid quantity"])

/-- The waypoint plan built by `check_allocated_job`, with the
`("pick_can", CAN_QUANTITY)` step parameterized by the job quantity. -/
def buildWaypoints (q : Int) : List Waypoint :=
  [[PyV.pyFloat 1.68, PyV.pyFloat (-3.06), PyV.pyStr "backward"],
   [PyV.pyStr "turn_right", PyV.pyFloat 11.0],
   [PyV.pyFloat 1.93, PyV.pyFloat (-0.59), PyV.pyStr "forward"],
   [PyV.pyStr "pick_can", PyV.pyInt q],
   [PyV.pyFloat 1.83, PyV.pyFloat (-3.20), PyV.pyStr "backward"],
   [PyV.pyStr "turn_left", PyV.pyFloat 3.0],
   [PyV.pyInt 0, PyV.pyInt 0, PyV.pyInt 1, PyV.pyInt 0, PyV.pyStr "rotation"],
   [PyV.pyFloat 0.70, PyV.pyFloat (-3.06), PyV.pyStr "backward"],
   [PyV.pyFloat 3.019, PyV.pyFloat (-3.06), PyV.pyStr "forward"]]

/-- The module-level job bookkeeping mutated by `check_allocated_job`:
`CURRENT_JOB_ID` (0 is modelled as `none`), `CAN_QUANTITY`,
`JOB_IN_PROGRESS`, and the `waypoints` list. -/
structure JobPollState where
  currentJobId : Option String
  canQuantity : Int
  jobInProgress : Bool
  waypoints : List Waypoint
deriving DecidableEq

/-- Outcome of the `get-assigned-job` request, as seen after JSON
parsing: a raised exception, an unsuccessful/empty response, or a job
record with its id and items. -/
inductive PollResponse
  | netError
  | noJob
  | job (id : String) (items : List (String × Int))
deriving DecidableEq

/-- `check_allocated_job`: a raised exception is caught and logged; an
unsuccessful or empty response only logs.  On a job response,
`CURRENT_JOB_ID` is assigned first; only when the item list is exactly
one `"Can"` entry are the quantity, plan, and in-progress flag set. -/
def check_allocated_job (resp : PollResponse) (s : JobPollState) :
    JobPollState × List Ev :=
  match resp with
  | .netError => (s, [Ev.logMsg "error checking allocated job"])
  | .noJob => (s, [Ev.logMsg "no jobs assigned yet"])
  | .job id items =>
    let s1 := { s with currentJobId := some id }
    match items with
    | [(name, qty)] =>
      if name = "Can" then
        ({ s1 with canQuantity := qty, jobInProgress := true,
                   waypoints := buildWaypoints qty },
         [Ev.robotLog "starting job", Ev.reportJobTime true id,
          Ev.jobStarted id qty])
      else (s1, [])
    | _ => (s1, [])

/-- The controller's mutable state: the slot cache, the job bookkeeping
globals, the waypoint cursor, the rotation sub-state, and the poll
timer. -/
structure RState where
  shelves : List Slot
  battery : Int
  currentJobId : Option String
  canQuantity : Int
  jobInProgress : Bool
  waypoints : List Waypoint
  waypointIndex : Nat
  isRotating : Bool
  rotationStartTime : Option Rat
  rotationDirection : Option String
  rotationDuration : Rat
  lastCall : Rat
deriving DecidableEq

/-- External inputs consumed by one loop iteration: the wall clock
(`time.time()`), the simulation clock (`robot.getTime()`), the GPS
position, and the outcomes of the backend/actuator interactions that may
occur this tick. -/
structure TickInput where
  wallNow : Rat
  simTime : Rat
  posX : Rat
  posY : Rat
  poll : PollResponse
  markOk : Nat → Bool
  rotationFieldOk : Bool
  jobStatusOk : Bool

/-- The poll-timer head of the loop: when 10 s have elapsed since
`last_call` and no job is in progress, run `check_allocated_job` and
reset the timer. -/
def tickPoll (s : RState) (inp : TickInput) : RState × List Ev :=
  if 10 ≤ inp.wallNow - s.lastCall ∧ s.jobInProgress = false then
    let r := check_allocated_job inp.poll
      { currentJobId := s.currentJobId, canQuantity := s.canQuantity,
        jobInProgress := s.jobInProgress, waypoints := s.waypoints }
    ({ s with currentJobId := r.1.currentJobId, canQuantity := r.1.canQuantity,
              jobInProgress := r.1.jobInProgress, waypoints := r.1.waypoints,
              lastCall := inp.wallNow },
     Ev.pollAttempt :: r.2)
  else (s, [])

/-- The terminal branch (`current_waypoint_index >= len(waypoints)`):
stop, log the final position, and if a job id is set report end time,
completion log, job status (which clears `CURRENT_JOB_ID` only on remote
success), idle availability, decrement the battery by 5, and report
`batteryCount = 5`; then clear the plan, cursor, and in-progress flag. -/
def tickTerminal (s : RState) (inp : TickInput) : RState × List Ev :=
  match s.currentJobId with
  | some jid =>
    ({ s with currentJobId := if inp.jobStatusOk then none else some jid,
              battery := s.battery - 5,
              waypoints := [], waypointIndex := 0, jobInProgress := false },
     [Ev.wheelCmd 0 0 0 0, Ev.logMsg "final position",
      Ev.reportJobTime false jid, Ev.robotLog "completed job",
      Ev.reportJobStatus "completed" jid, Ev.reportAvailability "idle",
      Ev.reportBattery 5])
  | none =>
    ({ s with waypoints := [], waypointIndex := 0, jobInProgress := false },
     [Ev.wheelCmd 0 0 0 0, Ev.logMsg "final position"])

/-- `isinstance(wp, tuple) and len(wp) >= 2 and wp[0] == "pick_can"`. -/
def isPickShape (wp : Waypoint) : Bool :=
  decide (2 ≤ wp.length) && decide (wp[0]? = some (PyV.pyStr "pick_can"))

/-- `isinstance(wp, tuple) and len(wp) == 5 and wp[4] == 'rotation'`. -/
def isRotationShape (wp : Waypoint) : Bool :=
  decide (wp.length = 5) && decide (wp[4]? = some (PyV.pyStr "rotation"))

/-- `cmd.startswith("turn_")`. -/
def startsWithTurn (c : String) : Bool :=
  match c.data with
  | 't' :: 'u' :: 'r' :: 'n' :: '_' :: _ => true
  | _ => false

/-- `isinstance(wp, tuple) and len(wp) == 2 and isinstance(wp[0], str)
and wp[0].startswith("turn_")`. -/
def isTurnShape (wp : Waypoint) : Bool :=
  decide (wp.length = 2) &&
    (match wp[0]? with
     | some (PyV.pyStr c) => startsWithTurn c
     | _ => false)

/-- Squared Euclidean distance; `calculate_distance` is its square root
and the controller only compares it against the 0.1 tolerance, which for
nonnegative radicands is equivalent to comparing the square against
1/100. -/
def distanceSq (x1 y1 x2 y2 : Rat) : Rat := (x2 - x1) ^ 2 + (y2 - y1) ^ 2

/-- Dispatch on the current (non-rotating) waypoint, in the source's
branch order: pick, direct rotation, 3-tuple movement, timed turn, then
the unrecognized-shape fallback which logs and advances the cursor
without touching the wheels.  `none` marks paths where the Python code
would raise an uncaught exception (non-numeric fields reaching
arithmetic or formatting). -/
def dispatchWaypoint (s : RState) (inp : TickInput) (wp : Waypoint) :
    Option (RState × List Ev) :=
  if isPickShape wp then
    match wp[1]? with
    | none => none
    | some q =>
      some ({ s with shelves := (pick_can_quantity q s.shelves inp.markOk).2.1,
                     waypointIndex := s.waypointIndex + 1 },
            Ev.logMsg "executing pick can" ::
              Ev.robotLog "beginning to pick can" ::
                (pick_can_quantity q s.shelves inp.markOk).2.2)
  else if isRotationShape wp then
    match wp with
    | [vx, vy, vz, va, _] =>
      match vx.toRat, vy.toRat, vz.toRat, va.toRat with
      | some x, some y, some z, some a =>
        some ({ s with waypointIndex := s.waypointIndex + 1 },
              Ev.wheelCmd 0 0 0 0 ::
                (if inp.rotationFieldOk then
                  [Ev.setRotationCmd x y z a,
                   Ev.logMsg "rotation waypoint completed"]
                else [Ev.logMsg "rotation waypoint failed"]))
      | _, _, _, _ => none
    | _ => none
  else if wp.length = 3 then
    match wp with
    | [tx, ty, mt] =>
      match tx.toRat, ty.toRat with
      | some x, some y =>
        if distanceSq inp.posX inp.posY x y < 1 / 100 then
          some ({ s with waypointIndex := s.waypointIndex + 1 },
                [Ev.logMsg "reached waypoint", Ev.robotLog "reached waypoint",
                 Ev.wheelCmd 0 0 0 0])
        else if mt = PyV.pyStr "forward" then
          some (s, [Ev.wheelCmd 5 5 5 5])
        else if mt = PyV.pyStr "backward" then
          some (s, [Ev.wheelCmd (-5) (-5) (-5) (-5)])
        else
          some ({ s with waypointIndex := s.waypointIndex + 1 },
                [Ev.logMsg "unknown movement type", Ev.wheelCmd 0 0 0 0])
      | _, _ => none
    | _ => none
  else if isTurnShape wp then
    match wp with
    | [PyV.pyStr cmd, dv] =>
      match dv.toRat with
      | some d =>
        if cmd = "turn_left" then
          some ({ s with rotationDirection := some "left", isRotating := true,
                         rotationStartTime := some inp.simTime,
                         rotationDuration := d },
                [Ev.logMsg "starting rotation", Ev.wheelCmd (-8) 8 8 (-8)])
        else if cmd = "turn_right" then
          some ({ s with rotationDirection := some "right", isRotating := true,
                         rotationStartTime := some inp.simTime,
                         rotationDuration := d },
                [Ev.logMsg "starting rotation", Ev.wheelCmd 8 (-8) (-8) 8])
        else
          some ({ s with isRotating := true,
                         rotationStartTime := some inp.simTime,
                         rotationDuration := d },
                [Ev.logMsg "starting rotation"])
      | none => none
    | _ => none
  else
    some ({ s with waypointIndex := s.waypointIndex + 1 },
          [Ev.logMsg "unrecognized waypoint"])

/-- The rotating branch: with the recorded start time (a missing one
would make the Python subtraction raise), either finish the turn once the
elapsed time reaches the duration (stop, clear the sub-state, advance the
cursor; a `None` direction would make `.title()` raise), or reissue the
turn command for the stored direction. -/
def tickRotating (s : RState) (inp : TickInput) : Option (RState × List Ev) :=
  match s.rotationStartTime with
  | none => none
  | some t0 =>
    if s.rotationDuration ≤ inp.simTime - t0 then
      match s.rotationDirection with
      | none => none
      | some _dir =>
        some ({ s with isRotating := false, rotationStartTime := none,
                       waypointIndex := s.waypointIndex + 1 },
              [Ev.wheelCmd 0 0 0 0])
    else
      some (s,
        if s.rotationDirection = some "left" then [Ev.wheelCmd (-8) 8 8 (-8)]
        else if s.rotationDirection = some "right" then
          [Ev.wheelCmd 8 (-8) (-8) 8]
        else [])

/-- Everything after the poll timer in one loop iteration: skip when the
plan is empty, finish the job at the terminal index, otherwise process
the current waypoint (continuing a rotation first). -/
def tickBody (s : RState) (inp : TickInput) : Option (RState × List Ev) :=
  if s.waypoints.length = 0 then some (s, [])
  else if s.waypoints.length ≤ s.waypointIndex then some (tickTerminal s inp)
  else
    match s.waypoints[s.waypointIndex]? with
    | none => none
    | some wp =>
      if s.isRotating then tickRotating s inp
      else dispatchWaypoint s inp wp

/-- One full iteration of the main control loop. -/
def step (s : RState) (inp : TickInput) : Option (RState × List Ev) :=
  (tickBody (tickPoll s inp).1 inp).map
    fun r => (r.1, (tickPoll s inp).2 ++ r.2)

/-- Events belonging to the job-acquisition path: a poll attempt or a
job start. -/
def isJobEv : Ev → Bool
  | Ev.pollAttempt => true
  | Ev.jobStarted _ _ => true
  | _ => false

/-- Number of job-acquisition events in a trace. -/
def jobEvCount (tr : List Ev) : Nat :=
  tr.countP isJobEv

/-- Number of per-slot pick choreographies launched in a trace. -/
def countPicks (tr : List Ev) : Nat :=
  tr.countP fun e =>
    match e with
    | Ev.logPicking _ _ => true
    | _ => false

/-- Number of arm-joint and gripper position commands in a trace. -/
def jointCmdCount (tr : List Ev) : Nat :=
  tr.countP fun e =>
    match e with
    | Ev.armCmd _ _ => true
    | Ev.fingerCmd _ _ => true
    | _ => false

/-- The battery reports contained in a trace. -/
def batteryReports (tr : List Ev) : List Ev :=
  tr.filter fun e =>
    match e with
    | Ev.reportBattery _ => true
    | _ => false

/-- The wheel commands contained in a trace. -/
def wheelCmds (tr : List Ev) : List Ev :=
  tr.filter fun e =>
    match e with
    | Ev.wheelCmd _ _ _ _ => true
    | _ => false

/-- The single shared-state guard: while a job is in progress, a job id
is recorded and a plan is loaded. -/
def JobInv (s : RState) : Prop :=
  s.jobInProgress = true → s.currentJobId ≠ none ∧ s.waypoints ≠ []

/-- A quiescent controller state used to build concrete scenarios. -/
def baseState : RState :=
  { shelves := [], battery := 100, currentJobId := none, canQuantity := 0,
    jobInProgress := false, waypoints := [], waypointIndex := 0,
    isRotating := false, rotationStartTime := none, rotationDirection := none,
    rotationDuration := 0, lastCall := 0 }

/-- A neutral tick input used to build concrete scenarios. -/
def baseInput : TickInput :=
  { wallNow := 0, simTime := 0, posX := 0, posY := 0,
    poll := PollResponse.noJob, markOk := fun _ => true,
    rotationFieldOk := true, jobStatusOk := true }

/-- The turn command issued for a stored rotation direction. -/
def turnCmdEv (dir : String) : Ev :=
  if dir = "left" then Ev.wheelCmd (-8) 8 8 (-8)
  else Ev.wheelCmd 8 (-8) (-8) 8

/-- Completion-tick scenario: the plan is fully consumed and a job id is
still recorded, with the local battery at 87 %. -/
def doneState : RState :=
  { baseState with
    battery := 87, currentJobId := some "job1",
    jobInProgress := true, waypoints := [[PyV.pyStr "x"]], waypointIndex := 1 }

/-- Scenario: the current waypoint has an unrecognized shape (a 1-tuple). -/
def badWpState : RState :=
  { baseState with
    jobInProgress := true,
    waypoints := [[PyV.pyStr "hello"]], waypointIndex := 0 }

/-- Scenario: mid-way through a leftward timed turn of 2 s started at
simulation time 0. -/
def turnState : RState :=
  { baseState with
    jobInProgress := true,
    waypoints := [[PyV.pyStr "turn_left", PyV.pyFloat 2]], waypointIndex := 0,
    isRotating := true, rotationStartTime := some 0,
    rotationDirection := some "left", rotationDuration := 2 }

/-- A tick input at simulation time 5 (past the 2 s turn duration). -/
def turnDoneInput : TickInput := { baseInput with simTime := 5 }

/-- Empty job bookkeeping, as at controller startup. -/
def emptyPollState : JobPollState :=
  { currentJobId := none, canQuantity := 0, jobInProgress := false,
    waypoints := [] }

/-- A poll response carrying a job whose item list is not a single
`"Can"` entry. -/
def biscuitJob : PollResponse := PollResponse.job "j1" [("Biscuit", 2)]

/-- A tick input at wall time 10 whose poll returns `biscuitJob`. -/
def biscuitInput : TickInput :=
  { baseInput with wallNow := 10, poll := biscuitJob }

/-- The trace emitted by the completion tick of `doneState`. -/
def doneTrace : List Ev :=
  [Ev.wheelCmd 0 0 0 0, Ev.logMsg "final position",
   Ev.reportJobTime false "job1", Ev.robotLog "completed job",
   Ev.reportJobStatus "completed" "job1", Ev.reportAvailability "idle",
   Ev.reportBattery 5]

/-! ## Slot-inventory lemmas -/

theorem markFirst_of_mem (sid : Int) (cache : List Slot)
    (hmem : ∃ t ∈ cache, t.id = sid) :
    ∃ cache', markFirst sid cache = some cache' ∧
      ∃ t, firstWithId sid cache' = some t ∧ t.available = false := by
  induction cache with
  | nil => simp at hmem
  | cons s rest ih =>
    by_cases h : s.id = sid
    · refine ⟨{ s with available := false } :: rest, ?_, ?_⟩
      · simp [markFirst, h]
      · exact ⟨{ s with available := false }, by simp [firstWithId, h], rfl⟩
    · obtain ⟨t, ht, hid⟩ := hmem
      rcases List.mem_cons.mp ht with rfl | hrest
      · exact absurd hid h
      · obtain ⟨c', hc', t', ht', ha⟩ := ih ⟨t, hrest, hid⟩
        refine ⟨s :: c', ?_, t', ?_, ha⟩
        · simp [markFirst, h, hc']
        · simp [firstWithId, h, ht']

theorem markFirst_of_absent (sid : Int) (cache : List Slot)
    (habs : ∀ t ∈ cache, t.id ≠ sid) :
    markFirst sid cache = none := by
  induction cache with
  | nil => rfl
  | cons s rest ih =>
    have hs : s.id ≠ sid := habs s (List.mem_cons_self s rest)
    have : markFirst sid rest = none :=
      ih fun t ht => habs t (List.mem_cons_of_mem s ht)
    simp [markFirst, hs, this]

theorem markFirst_some_mem (sid : Int) (cache : List Slot) (cache' : List Slot)
    (h : markFirst sid cache = some cache') : ∃ t ∈ cache, t.id = sid := by
  induction cache generalizing cache' with
  | nil => simp [markFirst] at h
  | cons s rest ih =>
    by_cases hs : s.id = sid
    · exact ⟨s, List.mem_cons_self s rest, hs⟩
    · simp only [markFirst, if_neg hs, Option.map_eq_some'] at h
      obtain ⟨c'', hc'', _⟩ := h
      obtain ⟨t, ht, hid⟩ := ih c'' hc''
      exact ⟨t, List.mem_cons_of_mem s ht, hid⟩

/-- Claim C1: for every call of `mark_slot_unavailable` on a slot present
in the local cache, the cache entry is set to unavailable exactly when
the remote backend update reports success, and the call returns `true`
exactly then; when the remote call does not report success the cache is
left unchanged (the entry stays available) and the call returns
`false`. -/
theorem mark_slot_unavailable_confirm (success : Bool) (sid : Int)
    (cache : List Slot) (hmem : ∃ t ∈ cache, t.id = sid) :
    ((mark_slot_unavailable success sid cache).1 = true ↔ success = true) ∧
    (success = true →
      ∃ t, firstWithId sid (mark_slot_unavailable success sid cache).2 = some t ∧
        t.available = false) ∧
    (success = false →
      mark_slot_unavailable success sid cache = (false, cache)) := by
  obtain ⟨cache', hmark, t, ht, hav⟩ := markFirst_of_mem sid cache hmem
  cases success with
  | false => simp [mark_slot_unavailable]
  | true =>
    refine ⟨by simp [mark_slot_unavailable, hmark], ?_, by simp⟩
    intro _
    exact ⟨t, by simp [mark_slot_unavailable, hmark, ht], hav⟩

theorem mark_slot_unavailable_confirm_witness :
    ((mark_slot_unavailable true 2 [⟨2, true⟩, ⟨4, true⟩]).1 = true ↔
      (true : Bool) = true) ∧
    ((true : Bool) = true →
      ∃ t, firstWithId 2 (mark_slot_unavailable true 2 [⟨2, true⟩, ⟨4, true⟩]).2 =
        some t ∧ t.available = false) ∧
    ((true : Bool) = false →
      mark_slot_unavailable true 2 [⟨2, true⟩, ⟨4, true⟩] =
        (false, [⟨2, true⟩, ⟨4, true⟩])) :=
  mark_slot_unavailable_confirm true 2 [⟨2, true⟩, ⟨4, true⟩]
    ⟨⟨2, true⟩, by simp, rfl⟩

/-- Claim C10: calling `mark_slot_unavailable` with a slot id absent from
the local cache returns `false` and leaves the cache unchanged even when
the remote update reports success, and a `true` return implies both
remote success and local presence of the slot. -/
theorem mark_slot_absent (success : Bool) (sid : Int) (cache : List Slot) :
    ((∀ t ∈ cache, t.id ≠ sid) →
      mark_slot_unavailable success sid cache = (false, cache)) ∧
    ((mark_slot_unavailable success sid cache).1 = true →
      success = true ∧ ∃ t ∈ cache, t.id = sid) := by
  constructor
  · intro habs
    cases success with
    | false => simp [mark_slot_unavailable]
    | true => simp [mark_slot_unavailable, markFirst_of_absent sid cache habs]
  · intro htrue
    cases success with
    | false => simp [mark_slot_unavailable] at htrue
    | true =>
      refine ⟨rfl, ?_⟩
      rcases hm : markFirst sid cache with _ | cache'
      · simp [mark_slot_unavailable, hm] at htrue
      · exact markFirst_some_mem sid cache cache' hm

theorem mark_slot_absent_witness :
    ((∀ t ∈ [(⟨2, true⟩ : Slot)], t.id ≠ 7) →
      mark_slot_unavailable true 7 [⟨2, true⟩] = (false, [⟨2, true⟩])) ∧
    ((mark_slot_unavailable true 7 [⟨2, true⟩]).1 = true →
      (true : Bool) = true ∧ ∃ t ∈ [(⟨2, true⟩ : Slot)], t.id = 7) :=
  mark_slot_absent true 7 [⟨2, true⟩]

/-- Claim C9, counterexample: `get_available_slots` returns the available
ids in cache order, so a cache whose slot list is not in ascending id
order yields an unsorted result — the claim's "sorted in ascending
identifier order" fails for this cache state. -/
theorem get_available_slots_not_sorted :
    get_available_slots [⟨2, true⟩, ⟨1, true⟩] = [2, 1] ∧
    ¬ List.Sorted (· ≤ ·) (get_available_slots [⟨2, true⟩, ⟨1, true⟩]) := by
  constructor
  · rfl
  · decide

/-- Claim C9, amended: `get_available_slots` returns exactly the ids of
the currently available slots in the order they appear in the cache;
when the cache list is sorted in ascending id order (as delivered by the
backend), the result is in ascending id order. -/
theorem get_available_slots_cache_order (cache : List Slot) :
    get_available_slots cache =
      (cache.filter (fun s => s.available)).map (fun s => s.id) ∧
    (List.Sorted (· ≤ ·) (cache.map (fun s => s.id)) →
      List.Sorted (· ≤ ·) (get_available_slots cache)) := by
  have heq : get_available_slots cache =
      (cache.filter (fun s => s.available)).map (fun s => s.id) := by
    induction cache with
    | nil => rfl
    | cons s rest ih =>
      by_cases h : s.available
      · simp [get_available_slots, h, List.filter_cons, ih]
      · simp [get_available_slots, h, List.filter_cons, ih]
  refine ⟨heq, ?_⟩
  intro hsorted
  rw [heq]
  exact List.Pairwise.sublist ((List.filter_sublist cache).map _) hsorted

theorem get_available_slots_cache_order_witness :
    get_available_slots [⟨1, true⟩, ⟨2, false⟩, ⟨3, true⟩] =
      (([⟨1, true⟩, ⟨2, false⟩, ⟨3, true⟩] : List Slot).filter
        (fun s => s.available)).map (fun s => s.id) ∧
    List.Sorted (· ≤ ·)
      (get_available_slots [⟨1, true⟩, ⟨2, false⟩, ⟨3, true⟩]) :=
  ⟨(get_available_slots_cache_order [⟨1, true⟩, ⟨2, false⟩, ⟨3, true⟩]).1,
   (get_available_slots_cache_order [⟨1, true⟩, ⟨2, false⟩, ⟨3, true⟩]).2
     (by decide)⟩

/-! ## Pick-sequencer lemmas -/

theorem countPicks_pick_can_from_slot (sid : Int) :
    countPicks (pick_can_from_slot sid) = 0 := by
  unfold pick_can_from_slot
  split_ifs <;> rfl

theorem countPicks_pickLoop (avail : List Int) :
    ∀ n i cache markOk, i + n ≤ avail.length →
      countPicks (pickLoop avail i n cache markOk).2 = n := by
  intro n
  induction n with
  | zero => intro i cache markOk _; rfl
  | succ m ih =>
    intro i cache markOk h
    have hi : i < avail.length := by omega
    have hget : avail[i]? = some avail[i] := List.getElem?_eq_getElem hi
    have hrec := ih (i + 1) (mark_slot_unavailable (markOk 0) avail[i] cache).2
      (fun k => markOk (k + 1)) (by omega)
    simp only [pickLoop, hget, countPicks, List.countP_cons, List.countP_append]
    simp only [countPicks] at hrec
    rw [hrec]
    have hslot := countPicks_pick_can_from_slot avail[i]
    simp only [countPicks] at hslot
    rw [hslot]
    simp

/-- Claim C2, counterexample: `pick_can_quantity` with requested
quantity 3 and a single available slot performs exactly one pick, but the
Python function body never executes `return <value>` — the call returns
`None`, not the count 1 promised by the
`pickBatch(quantity) -> count_actually_picked` contract. -/
theorem pick_can_quantity_no_return_value :
    (pick_can_quantity (PyV.pyInt 3) [⟨2, true⟩, ⟨4, false⟩]
      (fun _ => true)).1 = none ∧
    countPicks (pick_can_quantity (PyV.pyInt 3) [⟨2, true⟩, ⟨4, false⟩]
      (fun _ => true)).2.2 = 1 ∧
    (pick_can_quantity (PyV.pyInt 3) [⟨2, true⟩, ⟨4, false⟩]
      (fun _ => true)).1 ≠ some 1 := by
  refine ⟨rfl, rfl, fun h => ?_⟩
  rw [show (pick_can_quantity (PyV.pyInt 3) [⟨2, true⟩, ⟨4, false⟩]
    (fun _ => true)).1 = none from rfl] at h
  exact Option.noConfusion h

/-- Claim C2, amended: for a positive integer quantity `n` larger than
the available count `a`, `pick_can_quantity` clamps the quantity to `a`
(logging a warning), executes exactly `a` per-slot picks without raising
any error, and logs `a` as the count picked in its completion message;
the function itself returns `None` rather than the count. -/
theorem pick_can_quantity_clamps (n : Int) (cache : List Slot)
    (markOk : Nat → Bool) (hq : 0 < n)
    (hshort : ((get_available_slots cache).length : Int) < n) :
    (pick_can_quantity (PyV.pyInt n) cache markOk).1 = none ∧
    countPicks (pick_can_quantity (PyV.pyInt n) cache markOk).2.2 =
      (get_available_slots cache).length ∧
    Ev.logCompleted ((get_available_slots cache).length : Int) ∈
      (pick_can_quantity (PyV.pyInt n) cache markOk).2.2 ∧
    Ev.logClamp ((get_available_slots cache).length : Int) n ∈
      (pick_can_quantity (PyV.pyInt n) cache markOk).2.2 := by
  have hn : ¬ n ≤ 0 := by omega
  have hcount := countPicks_pickLoop (get_available_slots cache)
    (get_available_slots cache).length 0 cache markOk (by simp)
  simp only [pick_can_quantity, if_neg hn, if_pos hshort, Int.toNat_natCast]
  refine ⟨by trivial, ?_, by simp, by simp⟩
  simp only [countPicks, List.countP_cons, List.countP_append] at hcount ⊢
  simp [hcount]

theorem pick_can_quantity_clamps_witness :
    (pick_can_quantity (PyV.pyInt 3) [⟨2, true⟩, ⟨4, false⟩]
      (fun _ => true)).1 = none ∧
    countPicks (pick_can_quantity (PyV.pyInt 3) [⟨2, true⟩, ⟨4, false⟩]
      (fun _ => true)).2.2 =
      (get_available_slots [⟨2, true⟩, ⟨4, false⟩]).length ∧
    Ev.logCompleted ((get_available_slots [⟨2, true⟩, ⟨4, false⟩]).length : Int) ∈
      (pick_can_quantity (PyV.pyInt 3) [⟨2, true⟩, ⟨4, false⟩]
        (fun _ => true)).2.2 ∧
    Ev.logClamp ((get_available_slots [⟨2, true⟩, ⟨4, false⟩]).length : Int) 3 ∈
      (pick_can_quantity (PyV.pyInt 3) [⟨2, true⟩, ⟨4, false⟩]
        (fun _ => true)).2.2 :=
  pick_can_quantity_clamps 3 [⟨2, true⟩, ⟨4, false⟩] (fun _ => true)
    (by decide) (by decide)

/-- Claim C4, counterexample: a pick requested on slot 1 (whose
choreography is undefined) still issues the seven reset position
commands to the arm joints and grippers before the slot id is inspected,
and the per-slot loop still marks the slot unavailable afterwards when
the backend reports success — both "zero joint/gripper position
commands" and "the slot is not marked unavailable" fail. -/
theorem unimplemented_slot_resets_and_marks :
    jointCmdCount (pick_can_from_slot 1) = 7 ∧
    jointCmdCount (pick_can_from_slot 1) ≠ 0 ∧
    (pick_can_quantity (PyV.pyInt 1) [⟨1, true⟩] (fun _ => true)).2.1 =
      [⟨1, false⟩] ∧
    Ev.markUnavailableCall 1 true ∈
      (pick_can_quantity (PyV.pyInt 1) [⟨1, true⟩] (fun _ => true)).2.2 := by
  refine ⟨rfl, by decide, rfl, by decide⟩

/-- Claim C4, amended: for a pick on slot 1 or slot 3 the sequencer
issues only the universal reset commands (stop, all joints and fingers
to 0.0, one wait) followed by the unimplemented-slot log — it issues
none of that slot's (undefined) choreography and does not fall through
to another slot's choreography; however, the per-slot loop in
`pick_can_quantity` still calls `mark_slot_unavailable` for the slot, so
its inventory entry is lost whenever the backend reports success. -/
theorem unimplemented_slot_behavior (sid : Int) (hs : sid = 1 ∨ sid = 3) :
    pick_can_from_slot sid =
      resetCmds ++ [Ev.logMsg (if sid = 1 then "slot 1 not implemented"
                               else "slot 3 not implemented")] ∧
    jointCmdCount (pick_can_from_slot sid) = 7 ∧
    (∀ (cache : List Slot) (markOk : Nat → Bool),
      get_available_slots cache = [sid] →
      Ev.markUnavailableCall sid
          (mark_slot_unavailable (markOk 0) sid cache).1 ∈
        (pick_can_quantity (PyV.pyInt 1) cache markOk).2.2) := by
  have h2 : sid ≠ 2 := by rcases hs with rfl | rfl <;> decide
  have h4 : sid ≠ 4 := by rcases hs with rfl | rfl <;> decide
  refine ⟨?_, ?_, ?_⟩
  · rcases hs with rfl | rfl <;> rfl
  · rcases hs with rfl | rfl <;> rfl
  · intro cache markOk havail
    simp only [pick_can_quantity, havail]
    norm_num [pickLoop]

theorem unimplemented_slot_behavior_witness :
    pick_can_from_slot 1 =
      resetCmds ++ [Ev.logMsg (if (1 : Int) = 1 then "slot 1 not implemented"
                               else "slot 3 not implemented")] ∧
    jointCmdCount (pick_can_from_slot 1) = 7 ∧
    (∀ (cache : List Slot) (markOk : Nat → Bool),
      get_available_slots cache = [1] →
      Ev.markUnavailableCall 1
          (mark_slot_unavailable (markOk 0) 1 cache).1 ∈
        (pick_can_quantity (PyV.pyInt 1) cache markOk).2.2) :=
  unimplemented_slot_behavior 1 (Or.inl rfl)

/-! ## Tick-loop lemmas -/

theorem jobEvCount_pick_slot (sid : Int) :
    jobEvCount (pick_can_from_slot sid) = 0 := by
  unfold pick_can_from_slot
  split_ifs <;> rfl

theorem jobEvCount_pickLoop (avail : List Int) :
    ∀ n i cache markOk, jobEvCount (pickLoop avail i n cache markOk).2 = 0 := by
  intro n
  induction n with
  | zero => intro i cache markOk; rfl
  | succ m ih =>
    intro i cache markOk
    rcases hget : avail[i]? with _ | sid
    · simp [pickLoop, hget, jobEvCount, isJobEv]
    · have hrec := ih (i + 1) (mark_slot_unavailable (markOk 0) sid cache).2
        (fun k => markOk (k + 1))
      have hslot := jobEvCount_pick_slot sid
      simp only [jobEvCount, List.countP_cons, List.countP_append] at hrec hslot ⊢
      simp [pickLoop, hget, List.countP_cons, List.countP_append, hrec, hslot,
        isJobEv]

theorem jobEvCount_pick (q : PyV) (cache : List Slot) (markOk : Nat → Bool) :
    jobEvCount (pick_can_quantity q cache markOk).2.2 = 0 := by
  cases q with
  | pyInt n =>
    by_cases hn : n ≤ 0
    · simp [pick_can_quantity, hn, jobEvCount, isJobEv]
    · have hloop := jobEvCount_pickLoop (get_available_slots cache)
        (if ((get_available_slots cache).length : Int) < n then
          ((get_available_slots cache).length : Int) else n).toNat 0 cache markOk
      simp only [jobEvCount, List.countP_cons, List.countP_append] at hloop ⊢
      by_cases hc : ((get_available_slots cache).length : Int) < n <;>
        simp [pick_can_quantity, hn, hc, List.countP_cons, List.countP_append,
          isJobEv] <;>
        simpa [hc] using hloop
  | pyFloat q => simp [pick_can_quantity, jobEvCount, isJobEv]
  | pyStr s => simp [pick_can_quantity, jobEvCount, isJobEv]

theorem tickTerminal_facts (s : RState) (inp : TickInput) :
    jobEvCount (tickTerminal s inp).2 = 0 ∧
    (tickTerminal s inp).1.lastCall = s.lastCall ∧
    (tickTerminal s inp).1.jobInProgress = false ∧
    (s.currentJobId ≠ none →
      ∃ jid, Ev.reportJobStatus "completed" jid ∈ (tickTerminal s inp).2) := by
  rcases h : s.currentJobId with _ | jid
  · refine ⟨?_, ?_, ?_, fun hne => ?_⟩
    · simp [tickTerminal, h, jobEvCount, isJobEv]
    · simp [tickTerminal, h]
    · simp [tickTerminal, h]
    · exact absurd rfl hne
  · refine ⟨?_, ?_, ?_, fun _ => ⟨jid, by simp [tickTerminal, h]⟩⟩
    · simp [tickTerminal, h, jobEvCount, isJobEv]
    · simp [tickTerminal, h]
    · simp [tickTerminal, h]

theorem tickRotating_facts (s : RState) (inp : TickInput)
    (r : RState × List Ev) (h : tickRotating s inp = some r) :
    jobEvCount r.2 = 0 ∧
    r.1.lastCall = s.lastCall ∧
    r.1.jobInProgress = s.jobInProgress ∧
    r.1.currentJobId = s.currentJobId ∧
    r.1.waypoints = s.waypoints := by
  unfold tickRotating at h
  repeat' split at h
  all_goals first
    | (simp only [Option.some.injEq] at h; subst h;
       exact ⟨by simp [jobEvCount, isJobEv], rfl, rfl, rfl, rfl⟩)
    | simp at h

theorem dispatchWaypoint_facts (s : RState) (inp : TickInput) (wp : Waypoint)
    (r : RState × List Ev) (h : dispatchWaypoint s inp wp = some r) :
    jobEvCount r.2 = 0 ∧
    r.1.lastCall = s.lastCall ∧
    r.1.jobInProgress = s.jobInProgress ∧
    r.1.currentJobId = s.currentJobId ∧
    r.1.waypoints = s.waypoints := by
  unfold dispatchWaypoint at h
  repeat' split at h
  all_goals first
    | (simp only [Option.some.injEq] at h; subst h;
       refine ⟨?_, rfl, rfl, rfl, rfl⟩;
       first
         | (simp [jobEvCount, isJobEv]; done)
         | (rename_i q _;
            have hpick := jobEvCount_pick q s.shelves inp.markOk;
            simp only [jobEvCount] at hpick;
            simp [jobEvCount, List.countP_cons, hpick, isJobEv]))
    | simp at h

theorem buildWaypoints_ne_nil (q : Int) : buildWaypoints q ≠ [] := by
  simp [buildWaypoints]

theorem check_allocated_job_flag (resp : PollResponse) (s : JobPollState) :
    (check_allocated_job resp s).1.jobInProgress = true →
      s.jobInProgress = true ∨
      ((check_allocated_job resp s).1.currentJobId ≠ none ∧
       (check_allocated_job resp s).1.waypoints ≠ []) := by
  cases resp with
  | netError => exact fun h => Or.inl h
  | noJob => exact fun h => Or.inl h
  | job id items =>
    match items with
    | [] => exact fun h => Or.inl (by simpa [check_allocated_job] using h)
    | [(name, qty)] =>
      by_cases hname : name = "Can"
      · intro _
        refine Or.inr ⟨?_, ?_⟩
        · simp [check_allocated_job, hname]
        · simp only [check_allocated_job, hname, if_pos]
          exact buildWaypoints_ne_nil qty
      · exact fun h =>
          Or.inl (by simpa [check_allocated_job, hname] using h)
    | (p :: q' :: rest) =>
      exact fun h => Or.inl (by simpa [check_allocated_job] using h)

theorem tickPoll_facts (s : RState) (inp : TickInput) :
    ((10 ≤ inp.wallNow - s.lastCall ∧ s.jobInProgress = false) →
       (tickPoll s inp).1.lastCall = inp.wallNow ∧
       Ev.pollAttempt ∈ (tickPoll s inp).2) ∧
    (¬ (10 ≤ inp.wallNow - s.lastCall ∧ s.jobInProgress = false) →
       tickPoll s inp = (s, [])) ∧
    (s.jobInProgress = true → tickPoll s inp = (s, [])) ∧
    (Ev.pollAttempt ∈ (tickPoll s inp).2 →
       10 ≤ inp.wallNow - s.lastCall ∧ s.jobInProgress = false) ∧
    (JobInv s → JobInv (tickPoll s inp).1) := by
  by_cases hg : 10 ≤ inp.wallNow - s.lastCall ∧ s.jobInProgress = false
  · refine ⟨fun _ => ⟨by simp [tickPoll, hg], by simp [tickPoll, hg]⟩,
      fun hng => absurd hg hng, fun hfl => absurd hg.2 (by simp [hfl]),
      fun _ => hg, fun _ => ?_⟩
    intro hfl
    have hflag := check_allocated_job_flag inp.poll
      { currentJobId := s.currentJobId, canQuantity := s.canQuantity,
        jobInProgress := s.jobInProgress, waypoints := s.waypoints }
    simp only [tickPoll, if_pos hg] at hfl ⊢
    rcases hflag hfl with hold | ⟨hid, hwps⟩
    · exact absurd hg.2 (by simp [show s.jobInProgress = true from hold])
    · exact ⟨hid, hwps⟩
  · refine ⟨fun h => absurd h hg, fun _ => by simp [tickPoll, hg],
      fun _ => by simp [tickPoll, hg], fun hmem => ?_, fun hinv => ?_⟩
    · rw [show tickPoll s inp = (s, []) from by simp [tickPoll, hg]] at hmem
      simp at hmem
    · rw [show tickPoll s inp = (s, []) from by simp [tickPoll, hg]]
      exact hinv

theorem tickBody_facts (s : RState) (inp : TickInput) (r : RState × List Ev)
    (h : tickBody s inp = some r) :
    jobEvCount r.2 = 0 ∧
    r.1.lastCall = s.lastCall ∧
    (r.1.jobInProgress = true →
      s.jobInProgress = true ∧ r.1.currentJobId = s.currentJobId ∧
      r.1.waypoints = s.waypoints) ∧
    (s.jobInProgress = true → r.1.jobInProgress = false →
      s.waypoints ≠ [] ∧ s.waypoints.length ≤ s.waypointIndex ∧
      (s.currentJobId ≠ none →
        ∃ jid, Ev.reportJobStatus "completed" jid ∈ r.2)) := by
  unfold tickBody at h
  by_cases h0 : s.waypoints.length = 0
  · rw [if_pos h0] at h
    obtain rfl : (s, ([] : List Ev)) = r := Option.some.inj h
    exact ⟨rfl, rfl, fun hfl => ⟨hfl, rfl, rfl⟩,
      fun h1 h2 => absurd h2 (by simp [h1])⟩
  · rw [if_neg h0] at h
    by_cases hterm : s.waypoints.length ≤ s.waypointIndex
    · rw [if_pos hterm] at h
      obtain rfl : tickTerminal s inp = r := Option.some.inj h
      have hf := tickTerminal_facts s inp
      refine ⟨hf.1, hf.2.1, fun hfl => absurd hfl (by simp [hf.2.2.1]), ?_⟩
      intro _ _
      exact ⟨fun hnil => h0 (by simp [hnil]), hterm, hf.2.2.2⟩
    · rw [if_neg hterm] at h
      rcases hwp : s.waypoints[s.waypointIndex]? with _ | wp
      · simp only [hwp] at h
        exact Option.noConfusion h
      · simp only [hwp] at h
        by_cases hrot : s.isRotating = true
        · rw [if_pos hrot] at h
          have hf := tickRotating_facts s inp r h
          refine ⟨hf.1, hf.2.1, fun hfl => ⟨by rw [← hf.2.2.1]; exact hfl,
            hf.2.2.2.1, hf.2.2.2.2⟩, ?_⟩
          intro h1 h2
          rw [hf.2.2.1, h1] at h2
          exact absurd h2 (by simp)
        · rw [if_neg hrot] at h
          have hf := dispatchWaypoint_facts s inp wp r h
          refine ⟨hf.1, hf.2.1, fun hfl => ⟨by rw [← hf.2.2.1]; exact hfl,
            hf.2.2.2.1, hf.2.2.2.2⟩, ?_⟩
          intro h1 h2
          rw [hf.2.2.1, h1] at h2
          exact absurd h2 (by simp)

theorem not_mem_of_jobEvCount_zero (tr : List Ev) (h : jobEvCount tr = 0) :
    Ev.pollAttempt ∉ tr ∧ ∀ id q, Ev.jobStarted id q ∉ tr := by
  have h' := List.countP_eq_zero.mp (by simpa [jobEvCount] using h)
  exact ⟨fun hm => (h' _ hm) rfl, fun id q hm => (h' _ hm) rfl⟩

theorem step_parts (s : RState) (inp : TickInput) (s' : RState) (tr : List Ev)
    (hstep : step s inp = some (s', tr)) :
    ∃ ev2, tickBody (tickPoll s inp).1 inp = some (s', ev2) ∧
      tr = (tickPoll s inp).2 ++ ev2 := by
  unfold step at hstep
  rcases hb : tickBody (tickPoll s inp).1 inp with _ | r
  · rw [hb] at hstep; simp at hstep
  · rw [hb] at hstep
    simp only [Option.map_some', Option.some.injEq, Prod.mk.injEq] at hstep
    obtain ⟨h1, h2⟩ := hstep
    refine ⟨r.2, ?_, h2.symm⟩
    rw [← h1]

/-- Claim C5: the job-in-progress flag is cleared only by the terminal
branch — any tick that moves it from `true` to `false` had its plan
fully consumed and dispatched the completion report — and while it is
`true` no poll is attempted and no job is started, so a second job can
never be started while one is active; the flag invariant (a job id and
a nonempty plan accompany an active job) is preserved by every tick. -/
theorem job_exclusion (s : RState) (inp : TickInput) (s' : RState)
    (tr : List Ev) (hstep : step s inp = some (s', tr)) :
    (s.jobInProgress = true →
       Ev.pollAttempt ∉ tr ∧ ∀ id q, Ev.jobStarted id q ∉ tr) ∧
    (JobInv s → JobInv s') ∧
    (JobInv s → s.jobInProgress = true → s'.jobInProgress = false →
       s.waypoints ≠ [] ∧ s.waypoints.length ≤ s.waypointIndex ∧
       ∃ jid, Ev.reportJobStatus "completed" jid ∈ tr) := by
  obtain ⟨ev2, hbody, htr⟩ := step_parts s inp s' tr hstep
  have hpf := tickPoll_facts s inp
  have hbf := tickBody_facts (tickPoll s inp).1 inp (s', ev2) hbody
  refine ⟨?_, ?_, ?_⟩
  · intro hflag
    have hpoll : tickPoll s inp = (s, []) := hpf.2.2.1 hflag
    rw [hpoll] at htr
    simp only [List.nil_append] at htr
    subst htr
    exact not_mem_of_jobEvCount_zero _ hbf.1
  · intro hinv
    have hinvP : JobInv (tickPoll s inp).1 := hpf.2.2.2.2 hinv
    intro hfl
    obtain ⟨hfl1, hid, hwps⟩ := hbf.2.2.1 hfl
    obtain ⟨hidP, hwpsP⟩ := hinvP hfl1
    rw [hid, hwps]
    exact ⟨hidP, hwpsP⟩
  · intro hinv hflag hflag'
    have hpoll : tickPoll s inp = (s, []) := hpf.2.2.1 hflag
    rw [hpoll] at htr hbody
    simp only [List.nil_append] at htr
    subst htr
    have hbf' := tickBody_facts s inp (s', tr) hbody
    obtain ⟨hnil, hlen, hrep⟩ := hbf'.2.2.2 hflag hflag'
    exact ⟨hnil, hlen, hrep (hinv hflag).1⟩

theorem job_exclusion_witness :
    (badWpState.jobInProgress = true →
       Ev.pollAttempt ∉ [Ev.logMsg "unrecognized waypoint"] ∧
       ∀ id q, Ev.jobStarted id q ∉ [Ev.logMsg "unrecognized waypoint"]) ∧
    (JobInv badWpState →
      JobInv { badWpState with waypointIndex := 1 }) ∧
    (JobInv badWpState → badWpState.jobInProgress = true →
       ({ badWpState with waypointIndex := 1 } : RState).jobInProgress = false →
       badWpState.waypoints ≠ [] ∧
       badWpState.waypoints.length ≤ badWpState.waypointIndex ∧
       ∃ jid, Ev.reportJobStatus "completed" jid ∈
         [Ev.logMsg "unrecognized waypoint"]) :=
  job_exclusion badWpState baseInput { badWpState with waypointIndex := 1 }
    [Ev.logMsg "unrecognized waypoint"]
    (by simp [step, tickPoll, tickBody, dispatchWaypoint, badWpState,
      baseState, baseInput, isPickShape, isRotationShape, isTurnShape,
      startsWithTurn])

/-- Claim C7, counterexample: a poll whose response carries a job with a
non-`"Can"` item list does not start a job (flag stays `false`, no plan
is built, quantity untouched) yet it overwrites the stored current-job
identifier — the claim that every failed poll leaves all local state
untouched is false. -/
theorem failed_poll_mutates_job_id :
    (check_allocated_job biscuitJob emptyPollState).1.currentJobId = some "j1" ∧
    emptyPollState.currentJobId = none ∧
    (check_allocated_job biscuitJob emptyPollState).1.jobInProgress = false ∧
    (check_allocated_job biscuitJob emptyPollState).1.waypoints = [] ∧
    (check_allocated_job biscuitJob emptyPollState).1.canQuantity =
      emptyPollState.canQuantity := by
  refine ⟨rfl, rfl, rfl, rfl, rfl⟩

/-- Claim C7, amended: a poll that raises (network error/timeout) or gets
an unsuccessful or empty response leaves all local state untouched; a
successful response whose items are not exactly one `"Can"` entry leaves
the flag, quantity, and plan untouched but overwrites the stored
current-job id; and a poll attempt happens in a tick exactly when the
fixed 10-unit interval has elapsed and no job is in progress, the
interval timer resetting on every attempt and only then. -/
theorem failed_poll_behavior (s : JobPollState) (id : String)
    (items : List (String × Int)) (st : RState) (inp : TickInput)
    (s' : RState) (tr : List Ev)
    (hitems : ∀ q, items ≠ [("Can", q)])
    (hstep : step st inp = some (s', tr)) :
    check_allocated_job PollResponse.netError s =
      (s, [Ev.logMsg "error checking allocated job"]) ∧
    check_allocated_job PollResponse.noJob s =
      (s, [Ev.logMsg "no jobs assigned yet"]) ∧
    (check_allocated_job (PollResponse.job id items) s).1 =
      { s with currentJobId := some id } ∧
    (Ev.pollAttempt ∈ tr ↔
      (10 ≤ inp.wallNow - st.lastCall ∧ st.jobInProgress = false)) ∧
    ((10 ≤ inp.wallNow - st.lastCall ∧ st.jobInProgress = false) →
      s'.lastCall = inp.wallNow) ∧
    (¬ (10 ≤ inp.wallNow - st.lastCall ∧ st.jobInProgress = false) →
      s'.lastCall = st.lastCall) := by
  obtain ⟨ev2, hbody, htr⟩ := step_parts st inp s' tr hstep
  have hpf := tickPoll_facts st inp
  have hbf := tickBody_facts (tickPoll st inp).1 inp (s', ev2) hbody
  have hnotin : Ev.pollAttempt ∉ ev2 :=
    (not_mem_of_jobEvCount_zero _ hbf.1).1
  refine ⟨rfl, rfl, ?_, ?_, ?_, ?_⟩
  · match items with
    | [] => rfl
    | [(name, qty)] =>
      have hname : name ≠ "Can" := by
        intro hc
        exact hitems qty (by rw [hc])
      simp [check_allocated_job, hname]
    | (p :: q' :: rest) => rfl
  · constructor
    · intro hmem
      rw [htr] at hmem
      rcases List.mem_append.mp hmem with hp | hb
      · exact hpf.2.2.2.1 hp
      · exact absurd hb hnotin
    · intro hg
      rw [htr]
      exact List.mem_append.mpr (Or.inl ((hpf.1 hg).2))
  · intro hg
    rw [show s'.lastCall = (tickPoll st inp).1.lastCall from hbf.2.1]
    exact (hpf.1 hg).1
  · intro hg
    rw [show s'.lastCall = (tickPoll st inp).1.lastCall from hbf.2.1]
    rw [hpf.2.1 hg]

theorem failed_poll_behavior_witness :
    check_allocated_job PollResponse.netError emptyPollState =
      (emptyPollState, [Ev.logMsg "error checking allocated job"]) ∧
    check_allocated_job PollResponse.noJob emptyPollState =
      (emptyPollState, [Ev.logMsg "no jobs assigned yet"]) ∧
    (check_allocated_job (PollResponse.job "j1" [("Biscuit", 2)])
        emptyPollState).1 =
      { emptyPollState with currentJobId := some "j1" } ∧
    (Ev.pollAttempt ∈ [Ev.pollAttempt, Ev.logMsg "no jobs assigned yet"] ↔
      (10 ≤ baseInput.wallNow + 10 - baseState.lastCall ∧
        baseState.jobInProgress = false)) ∧
    ((10 ≤ baseInput.wallNow + 10 - baseState.lastCall ∧
        baseState.jobInProgress = false) →
      ({ baseState with lastCall := baseInput.wallNow + 10 } : RState).lastCall =
        baseInput.wallNow + 10) ∧
    (¬ (10 ≤ baseInput.wallNow + 10 - baseState.lastCall ∧
        baseState.jobInProgress = false) →
      ({ baseState with lastCall := baseInput.wallNow + 10 } : RState).lastCall =
        baseState.lastCall) :=
  failed_poll_behavior emptyPollState "j1" [("Biscuit", 2)] baseState
    { baseInput with wallNow := baseInput.wallNow + 10 }
    { baseState with lastCall := baseInput.wallNow + 10 }
    [Ev.pollAttempt, Ev.logMsg "no jobs assigned yet"]
    (fun q => by simp)
    (by simp [step, tickPoll, tickBody, check_allocated_job, baseState,
      baseInput])

theorem step_of_flag (s : RState) (inp : TickInput)
    (hflag : s.jobInProgress = true) :
    step s inp = tickBody s inp := by
  have hpoll : tickPoll s inp = (s, []) := (tickPoll_facts s inp).2.2.1 hflag
  unfold step
  rw [hpoll]
  rcases hb : tickBody s inp with _ | r
  · rfl
  · simp

theorem tickBody_at (s : RState) (inp : TickInput) (wp : Waypoint)
    (hlen : s.waypoints.length ≠ 0)
    (hidx : s.waypointIndex < s.waypoints.length)
    (hwp : s.waypoints[s.waypointIndex]? = some wp) :
    tickBody s inp =
      if s.isRotating = true then tickRotating s inp
      else dispatchWaypoint s inp wp := by
  unfold tickBody
  rw [if_neg hlen, if_neg (Nat.not_le.mpr hidx)]
  simp only [hwp]

/-- Claim C3 (code bug): at job completion the local battery is
decremented by the fixed constant 5, but `update_robot_battery(5)` is
called with the constant — the `batteryCount` reported to the backend is
5, not the new local level: from battery 87 the local value becomes 82
while the backend receives 5. -/
theorem battery_report_mismatch :
    step doneState baseInput =
      some ({ doneState with
                battery := 82, currentJobId := none, waypoints := [],
                waypointIndex := 0, jobInProgress := false }, doneTrace) ∧
    doneState.battery = 87 ∧
    doneState.battery - 5 = 82 ∧
    batteryReports doneTrace = [Ev.reportBattery 5] ∧
    Ev.reportBattery 82 ∉ doneTrace := by
  refine ⟨?_, rfl, rfl, rfl, ?_⟩
  · simp [step, tickPoll, tickBody, tickTerminal, doneState, baseState,
      baseInput, doneTrace]
  · simp [doneTrace]

/-- Claim C6, counterexample: the tick that hits an unrecognized waypoint
shape logs and advances the cursor but issues no wheel command at all —
in particular it does not stop the drive, contrary to the claim. -/
theorem fallback_no_stop :
    step badWpState baseInput =
      some ({ badWpState with waypointIndex := 1 },
            [Ev.logMsg "unrecognized waypoint"]) ∧
    wheelCmds [Ev.logMsg "unrecognized waypoint"] = [] := by
  refine ⟨?_, rfl⟩
  simp [step, tickPoll, tickBody, dispatchWaypoint, badWpState, baseState,
    baseInput, isPickShape, isRotationShape, isTurnShape, startsWithTurn]

/-- Claim C6, amended: on a waypoint whose shape is not a recognized
pick, rotation, movement, or turn form, the interpreter logs the anomaly
and advances the cursor by exactly one in that tick — so the plan never
stalls — but it issues no drive command in that tick (the fallback does
not stop the drive). -/
theorem fallback_advances (s : RState) (inp : TickInput) (wp : Waypoint)
    (hflag : s.jobInProgress = true)
    (hlen : s.waypoints.length ≠ 0)
    (hidx : s.waypointIndex < s.waypoints.length)
    (hwp : s.waypoints[s.waypointIndex]? = some wp)
    (hrot : s.isRotating = false)
    (h1 : isPickShape wp = false) (h2 : isRotationShape wp = false)
    (h3 : wp.length ≠ 3) (h4 : isTurnShape wp = false) :
    step s inp = some ({ s with waypointIndex := s.waypointIndex + 1 },
      [Ev.logMsg "unrecognized waypoint"]) ∧
    wheelCmds [Ev.logMsg "unrecognized waypoint"] = [] := by
  refine ⟨?_, rfl⟩
  rw [step_of_flag s inp hflag, tickBody_at s inp wp hlen hidx hwp,
    if_neg (by simp [hrot])]
  unfold dispatchWaypoint
  rw [if_neg (by simp [h1]), if_neg (by simp [h2]), if_neg h3,
    if_neg (by simp [h4])]

theorem fallback_advances_witness :
    step badWpState baseInput =
      some ({ badWpState with waypointIndex := badWpState.waypointIndex + 1 },
            [Ev.logMsg "unrecognized waypoint"]) ∧
    wheelCmds [Ev.logMsg "unrecognized waypoint"] = [] :=
  fallback_advances badWpState baseInput [PyV.pyStr "hello"] rfl
    (by decide) (by decide) rfl rfl rfl rfl (by decide) rfl

/-- Claim C8: a `turn_left`/`turn_right` step starts rotating in the
requested direction recording the start time and duration; on every tick
while the elapsed time is below the duration the same direction is
reissued and the state (in particular the direction and the cursor) is
unchanged; once elapsed time ≥ duration the drive is stopped, the cursor
advances by exactly one, and the rotation sub-state is cleared
(`is_rotating` false, start time `None`); and completion can happen only
when elapsed time ≥ duration. -/
theorem timed_turn_correct (s : RState) (inp : TickInput)
    (hflag : s.jobInProgress = true)
    (hlen : s.waypoints.length ≠ 0)
    (hidx : s.waypointIndex < s.waypoints.length) :
    (∀ cmd d dir,
      s.isRotating = false →
      s.waypoints[s.waypointIndex]? = some [PyV.pyStr cmd, PyV.pyFloat d] →
      ((cmd = "turn_left" ∧ dir = "left") ∨
       (cmd = "turn_right" ∧ dir = "right")) →
      step s inp =
        some ({ s with isRotating := true, rotationDirection := some dir,
                       rotationStartTime := some inp.simTime,
                       rotationDuration := d },
              [Ev.logMsg "starting rotation", turnCmdEv dir])) ∧
    (∀ t0 dir,
      s.isRotating = true →
      s.rotationStartTime = some t0 →
      s.rotationDirection = some dir →
      (dir = "left" ∨ dir = "right") →
      inp.simTime - t0 < s.rotationDuration →
      step s inp = some (s, [turnCmdEv dir])) ∧
    (∀ t0,
      s.isRotating = true →
      s.rotationStartTime = some t0 →
      (∃ dir, s.rotationDirection = some dir) →
      s.rotationDuration ≤ inp.simTime - t0 →
      step s inp =
        some ({ s with isRotating := false, rotationStartTime := none,
                       waypointIndex := s.waypointIndex + 1 },
              [Ev.wheelCmd 0 0 0 0])) ∧
    (∀ t0 s' tr,
      s.isRotating = true →
      s.rotationStartTime = some t0 →
      step s inp = some (s', tr) →
      s'.isRotating = false →
      s.rotationDuration ≤ inp.simTime - t0) := by
  have hwp0 : s.waypoints[s.waypointIndex]? =
      some s.waypoints[s.waypointIndex] := List.getElem?_eq_getElem hidx
  refine ⟨?_, ?_, ?_, ?_⟩
  · intro cmd d dir hrot hwp hdir
    rw [step_of_flag s inp hflag, tickBody_at s inp _ hlen hidx hwp,
      if_neg (by simp [hrot])]
    rcases hdir with ⟨rfl, rfl⟩ | ⟨rfl, rfl⟩ <;>
      · unfold dispatchWaypoint
        rw [if_neg (by simp [isPickShape]), if_neg (by simp [isRotationShape]),
          if_neg (by simp), if_pos (by simp [isTurnShape, startsWithTurn])]
        simp [PyV.toRat, turnCmdEv]
  · intro t0 dir hrot hstart hdir hlr hlt
    rw [step_of_flag s inp hflag,
      tickBody_at s inp _ hlen hidx hwp0, if_pos hrot]
    unfold tickRotating
    simp only [hstart]
    rw [if_neg (not_le.mpr hlt)]
    rcases hlr with rfl | rfl
    · simp [hdir, turnCmdEv]
    · simp [hdir, turnCmdEv]
  · intro t0 hrot hstart hdir hle
    obtain ⟨dir, hdir⟩ := hdir
    rw [step_of_flag s inp hflag,
      tickBody_at s inp _ hlen hidx hwp0, if_pos hrot]
    unfold tickRotating
    simp only [hstart]
    rw [if_pos hle]
    simp only [hdir]
  · intro t0 s' tr hrot hstart hstep hdone
    by_cases hle : s.rotationDuration ≤ inp.simTime - t0
    · exact hle
    · exfalso
      rw [step_of_flag s inp hflag,
        tickBody_at s inp _ hlen hidx hwp0, if_pos hrot] at hstep
      unfold tickRotating at hstep
      simp only [hstart] at hstep
      rw [if_neg hle] at hstep
      simp only [Option.some.injEq, Prod.mk.injEq] at hstep
      rw [← hstep.1, hrot] at hdone
      exact Bool.noConfusion hdone

theorem timed_turn_correct_witness :
    step turnState turnDoneInput =
      some ({ turnState with isRotating := false, rotationStartTime := none,
                             waypointIndex := turnState.waypointIndex + 1 },
            [Ev.wheelCmd 0 0 0 0]) :=
  (timed_turn_correct turnState turnDoneInput rfl (by decide) (by decide)).2.2.1
    0 rfl rfl ⟨"left", rfl⟩
    (by norm_num [turnState, turnDoneInput, baseState, baseInput])

end WarehouseRobot
